import Mathlib

/-!
Shallow embedding of the VPIC AltiVec 4-wide vector backend
(`src/util/v4/v4_altivec.hxx`) and proofs of the specification claims
about it.

Modelling conventions:
* A `v4` register holds four 32-bit lanes.  For pure data-movement
  operations (merge, transpose, transposed load/store, splat) the lane
  contents are opaque bit patterns, modelled by an arbitrary type `α`:
  the operations never inspect lane values, so any theorem proved for
  all `α` is a bit-for-bit statement about the register.
* For byte-granular operations (`vec_perm` and the 256-entry `_perm`
  table used by `shuffle`) a register is four lanes of four bytes each,
  i.e. a `V4 (V4 β)` with `β` the opaque byte type.
* For bit-pattern operations (`vec_sel` used by `merge`, comparison
  results) a lane is a `Nat` below `2 ^ 32`, with the usual `&&&`,
  `|||`, `^^^` bitwise operations.
* Floating-point lanes have no shallow value semantics; the AltiVec
  float primitives (`vec_re`, `vec_madd`, `vec_nmsub`, ...) are
  abstract operations collected in a `FloatOps` structure, so that
  structural claims (which primitive composition a routine performs)
  hold for every interpretation of the primitives, including IEEE-754.
-/

namespace VPIC

/-- A 4-lane AltiVec register; lane values of type `α`.  Lane 0 is the
lowest-addressed element (the element a `vec_ld` takes from offset 0). -/
structure V4 (α : Type) where
  l0 : α
  l1 : α
  l2 : α
  l3 : α
deriving DecidableEq

variable {α β : Type}

/-- Lane accessor (the `operator()` lane read of the source). -/
def V4.get (a : V4 α) (i : Fin 4) : α :=
  match i with
  | ⟨0, _⟩ => a.l0
  | ⟨1, _⟩ => a.l1
  | ⟨2, _⟩ => a.l2
  | ⟨3, _⟩ => a.l3
  | ⟨n + 4, h⟩ => absurd h (by omega)

/-- AltiVec `vec_mergeh` on 32-bit elements: interleave the two high
(lower-addressed) lanes of each operand: `(a0, b0, a1, b1)`. -/
def vec_mergeh (a b : V4 α) : V4 α := ⟨a.l0, b.l0, a.l1, b.l1⟩

/-- AltiVec `vec_mergel` on 32-bit elements: interleave the two low
(higher-addressed) lanes of each operand: `(a2, b2, a3, b3)`. -/
def vec_mergel (a b : V4 α) : V4 α := ⟨a.l2, b.l2, a.l3, b.l3⟩

/-- `transpose(a,b,c,d)` from `v4_altivec.hxx`: the two-step
merge/interleave network.  The source mutates its four reference
arguments; the embedding returns the four output registers. -/
def transpose (a b c d : V4 α) : V4 α × V4 α × V4 α × V4 α :=
  let a0 := a
  let b0 := b
  let c1 := c
  let d1 := d
  -- Step 1: Interleave top and bottom half
  let a1 := vec_mergeh a0 c1
  let b1 := vec_mergeh b0 d1
  let c2 := vec_mergel a0 c1
  let d2 := vec_mergel b0 d1
  -- Step 2: Interleave even and odd rows
  (vec_mergeh a1 b1, vec_mergel a1 b1, vec_mergeh c2 d2, vec_mergel c2 d2)

/-- `load_4x4_tr(pa,pb,pc,pd, a,b,c,d)`: loads the four 16-byte buffers
(each modelled by the `V4` it holds) and runs the same merge network,
writing the four destination registers (returned as a tuple). -/
def load_4x4_tr (pa pb pc pd : V4 α) : V4 α × V4 α × V4 α × V4 α :=
  let a0 := pa
  let b0 := pb
  let c1 := pc
  let d1 := pd
  -- Step 1: Interleave top and bottom half
  let a1 := vec_mergeh a0 c1
  let b1 := vec_mergeh b0 d1
  let c2 := vec_mergel a0 c1
  let d2 := vec_mergel b0 d1
  -- Step 2: Interleave even and odd rows
  (vec_mergeh a1 b1, vec_mergel a1 b1, vec_mergeh c2 d2, vec_mergel c2 d2)

/-- `store_4x4_tr(a,b,c,d, pa,pb,pc,pd)`: runs the merge network on the
four source registers and stores one result per 16-byte buffer; the
embedding returns the four stored buffers `(pa, pb, pc, pd)`. -/
def store_4x4_tr (a b c d : V4 α) : V4 α × V4 α × V4 α × V4 α :=
  let a0 := a
  let b0 := b
  let c1 := c
  let d1 := d
  -- Step 1: Interleave top and bottom half
  let a1 := vec_mergeh a0 c1
  let b1 := vec_mergeh b0 d1
  let c2 := vec_mergel a0 c1
  let d2 := vec_mergel b0 d1
  -- Step 2: Interleave even and odd rows
  (vec_mergeh a1 b1, vec_mergel a1 b1, vec_mergeh c2 d2, vec_mergel c2 d2)

/-- Tuple selector used to state lanewise transpose facts. -/
def quadGet (t : V4 α × V4 α × V4 α × V4 α) (i : Fin 4) : V4 α :=
  match i with
  | ⟨0, _⟩ => t.1
  | ⟨1, _⟩ => t.2.1
  | ⟨2, _⟩ => t.2.2.1
  | ⟨3, _⟩ => t.2.2.2
  | ⟨n + 4, h⟩ => absurd h (by omega)

/-! ### Byte-granular operations: `_perm`, `vec_perm`, `shuffle`, `splat`

A register is `V4 (V4 β)`: four 32-bit lanes of four bytes each.
Byte `j` (0 ≤ j < 16) of a register lives in lane `j / 4` at offset
`j % 4`. -/

/-- Byte `j` of a register (lane `j / 4`, byte offset `j % 4`). -/
def byteGet (a : V4 (V4 β)) (j : Fin 16) : β :=
  (a.get ⟨j.val / 4, by omega⟩).get ⟨j.val % 4, by omega⟩

/-- Rebuild a register from its 16 bytes. -/
def ofBytes (f : Fin 16 → β) : V4 (V4 β) :=
  ⟨⟨f 0, f 1, f 2, f 3⟩, ⟨f 4, f 5, f 6, f 7⟩,
    ⟨f 8, f 9, f 10, f 11⟩, ⟨f 12, f 13, f 14, f 15⟩⟩

/-- The `P(i0,i1,i2,i3)` macro of the source: the 16-byte permutation
pattern whose byte `j` is `4 * i_{j/4} + j % 4`, i.e. the pattern that
selects 32-bit lanes `i0,i1,i2,i3` of the source operand pair. -/
def P (i0 i1 i2 i3 : Nat) : Fin 16 → Nat := fun j =>
  4 * (match j.val / 4 with
       | 0 => i0
       | 1 => i1
       | 2 => i2
       | _ => i3) + j.val % 4

/-- The 256-entry `_perm` table.  The source lists it so that the entry
at index `i0 + i1*4 + i2*16 + i3*64` (each index in `0..3`) is
`P(i0,i1,i2,i3)`; equivalently, entry `n` is `P` applied to the four
base-4 digits of `n`. -/
def permEntry (n : Nat) : Fin 16 → Nat :=
  P (n % 4) (n / 4 % 4) (n / 16 % 4) (n / 64 % 4)

/-- AltiVec `vec_perm a b pat`: byte `j` of the result is byte
`pat j` of the 32-byte pool formed by `a` followed by `b`. -/
def vec_perm (a b : V4 (V4 β)) (pat : Fin 16 → Nat) : V4 (V4 β) :=
  ofBytes fun j =>
    let i := pat j
    if h : i < 16 then byteGet a ⟨i, h⟩
    else byteGet b ⟨i % 16, by omega⟩

/-- `shuffle(a, i0,i1,i2,i3)` from the source: `vec_perm(a, a, _perm[i0
+ i1*4 + i2*16 + i3*64])`.  The lane indices are restricted to `0..3`
(`Fin 4`), matching the documented precondition (out-of-range indices
read past the table and are undefined). -/
def shuffle (a : V4 (V4 β)) (i0 i1 i2 i3 : Fin 4) : V4 (V4 β) :=
  vec_perm a a (permEntry (i0.val + i1.val * 4 + i2.val * 16 + i3.val * 64))

/-- AltiVec `vec_splat a n`: broadcast 32-bit lane `n` to all lanes. -/
def vec_splat (a : V4 α) (n : Fin 4) : V4 α :=
  ⟨a.get n, a.get n, a.get n, a.get n⟩

/-- `splat(a, n)` from the source, at byte granularity so that it can
be compared with `shuffle`. -/
def splat (a : V4 (V4 β)) (n : Fin 4) : V4 (V4 β) :=
  vec_splat a n

/-! ### Bit-pattern operations: `vec_sel` / `merge`, comparisons

A 32-bit lane is a `Nat` below `2 ^ 32`. -/

/-- The all-ones 32-bit lane pattern (`-1` as a signed int, the lane
value of the `_true` constant). -/
def ones32 : Nat := 2 ^ 32 - 1

/-- Bitwise NOT of a 32-bit lane pattern. -/
def not32 (x : Nat) : Nat := x ^^^ ones32

/-- AltiVec `vec_sel(a, b, c)`: per bit, `(a AND NOT c) OR (b AND c)`. -/
def vec_sel (a b c : Nat) : Nat := (a &&& not32 c) ||| (b &&& c)

/-- `merge(c, t, f)` from the source: `m.v = vec_sel(f.v, t.v, c.v)`,
lanewise. -/
def merge (c t f : V4 Nat) : V4 Nat :=
  ⟨vec_sel f.l0 t.l0 c.l0, vec_sel f.l1 t.l1 c.l1,
    vec_sel f.l2 t.l2 c.l2, vec_sel f.l3 t.l3 c.l3⟩

/-- The `_true` constant `{-1,-1,-1,-1}`, as 32-bit lane patterns. -/
def vtrue : V4 Nat := ⟨ones32, ones32, ones32, ones32⟩

/-- The `_false` constant `{0,0,0,0}`. -/
def vfalse : V4 Nat := ⟨0, 0, 0, 0⟩

/-- Lanewise map over two registers (the shape shared by all the
lanewise AltiVec primitives). -/
def vmap2 {γ : Type} (f : α → β → γ) (a : V4 α) (b : V4 β) : V4 γ :=
  ⟨f a.l0 b.l0, f a.l1 b.l1, f a.l2 b.l2, f a.l3 b.l3⟩

/-- Two's-complement signed value of a 32-bit lane pattern (the view
the AltiVec signed-integer comparisons take of a lane). -/
def toSigned (x : Nat) : Int :=
  if x < 2 ^ 31 then (x : Int) else (x : Int) - 2 ^ 32

/-- AltiVec `vec_cmplt` on signed 32-bit integers: each lane all-ones
when the comparison holds, all-zero otherwise. -/
def vec_cmplt_int (a b : V4 Nat) : V4 Nat :=
  vmap2 (fun x y => if toSigned x < toSigned y then ones32 else 0) a b

/-- AltiVec `vec_cmpgt` on signed 32-bit integers. -/
def vec_cmpgt_int (a b : V4 Nat) : V4 Nat :=
  vmap2 (fun x y => if toSigned y < toSigned x then ones32 else 0) a b

/-- AltiVec `vec_cmpeq` on 32-bit integers (bit-pattern equality). -/
def vec_cmpeq_int (a b : V4 Nat) : V4 Nat :=
  vmap2 (fun x y => if x = y then ones32 else 0) a b

/-- AltiVec `vec_xor` on integer registers, lanewise. -/
def vec_xor_v (a b : V4 Nat) : V4 Nat := vmap2 (fun x y => x ^^^ y) a b

/-- AltiVec `vec_and` on integer registers, lanewise. -/
def vec_and_v (a b : V4 Nat) : V4 Nat := vmap2 (fun x y => x &&& y) a b

/-- AltiVec `vec_or` on integer registers, lanewise. -/
def vec_or_v (a b : V4 Nat) : V4 Nat := vmap2 (fun x y => x ||| y) a b

/-- `v4int operator<`: `vec_cmplt(a, b)`. -/
def ltv4int (a b : V4 Nat) : V4 Nat := vec_cmplt_int a b

/-- `v4int operator>`: `vec_cmpgt(a, b)`. -/
def gtv4int (a b : V4 Nat) : V4 Nat := vec_cmpgt_int a b

/-- `v4int operator==`: `vec_cmpeq(a, b)`. -/
def eqv4int (a b : V4 Nat) : V4 Nat := vec_cmpeq_int a b

/-- `v4int operator!=`: `vec_xor(_true, vec_cmpeq(a, b))`. -/
def nev4int (a b : V4 Nat) : V4 Nat := vec_xor_v vtrue (vec_cmpeq_int a b)

/-- `v4int operator<=`: `vec_xor(_true, vec_cmpgt(a, b))`. -/
def lev4int (a b : V4 Nat) : V4 Nat := vec_xor_v vtrue (vec_cmpgt_int a b)

/-- `v4int operator>=`: `vec_xor(_true, vec_cmplt(a, b))`. -/
def gev4int (a b : V4 Nat) : V4 Nat := vec_xor_v vtrue (vec_cmplt_int a b)

/-- `v4int operator&&`:
`vec_xor(_true, vec_or(vec_cmpeq(a, _false), vec_cmpeq(b, _false)))`. -/
def andv4int (a b : V4 Nat) : V4 Nat :=
  vec_xor_v vtrue (vec_or_v (vec_cmpeq_int a vfalse) (vec_cmpeq_int b vfalse))

/-- `v4int operator||`:
`vec_xor(_true, vec_and(vec_cmpeq(a, _false), vec_cmpeq(b, _false)))`. -/
def orv4int (a b : V4 Nat) : V4 Nat :=
  vec_xor_v vtrue (vec_and_v (vec_cmpeq_int a vfalse) (vec_cmpeq_int b vfalse))

/-- A hardware float comparison (`vec_cmplt`, `vec_cmpgt`, `vec_cmpeq`,
`vec_cmple`, `vec_cmpge` on float lanes): the lane relation `r` is
abstract, the lane result is all-ones or all-zero. -/
def vec_cmp_f {F : Type} (r : F → F → Bool) (a b : V4 F) : V4 Nat :=
  vmap2 (fun x y => if r x y then ones32 else 0) a b

/-- Broadcast of a float constant (models `_zero` for `&&` / `||`). -/
def vbroadcast {F : Type} (z : F) : V4 F := ⟨z, z, z, z⟩

/-- `v4float operator!=`: `vec_xor(vec_cmpeq(a, b), _true)`; `req` is
the hardware `vec_cmpeq` lane relation. -/
def nev4float {F : Type} (req : F → F → Bool) (a b : V4 F) : V4 Nat :=
  vec_xor_v (vec_cmp_f req a b) vtrue

/-- `v4float operator&&`:
`vec_xor(vec_or(vec_cmpeq(a, _zero), vec_cmpeq(b, _zero)), _true)`. -/
def andv4float {F : Type} (req : F → F → Bool) (z : F) (a b : V4 F) : V4 Nat :=
  vec_xor_v (vec_or_v (vec_cmp_f req a (vbroadcast z))
                      (vec_cmp_f req b (vbroadcast z))) vtrue

/-- `v4float operator||`:
`vec_xor(vec_and(vec_cmpeq(a, _zero), vec_cmpeq(b, _zero)), _true)`. -/
def orv4float {F : Type} (req : F → F → Bool) (z : F) (a b : V4 F) : V4 Nat :=
  vec_xor_v (vec_and_v (vec_cmp_f req a (vbroadcast z))
                       (vec_cmp_f req b (vbroadcast z))) vtrue

/-! ### Float primitives as abstract operations

`F` stands for a whole `_v4_float` register value; the AltiVec float
primitives are opaque operations on it.  Structural facts proved for
every `FloatOps` interpretation hold in particular for the IEEE-754
semantics of the hardware. -/

/-- The AltiVec float primitives used by `rcp`, `operator*` and
`operator/`: `vec_re` (hardware reciprocal estimate),
`vec_madd(a,b,c) = a*b+c`, `vec_nmsub(a,b,c) = c-a*b`, and the `_zero`
and `_one` constant registers.  There is no divide primitive. -/
structure FloatOps (F : Type) where
  re : F → F
  madd : F → F → F → F
  nmsub : F → F → F → F
  zero : F
  one : F

/-- `rcp(a)` from the source: `vec_re` estimate refined by two
Newton-Raphson steps `b = vec_madd(vec_nmsub(b, a, _one), b, b)`. -/
def rcp {F : Type} (ops : FloatOps F) (a : F) : F :=
  let b1 := ops.re a
  let b2 := ops.madd (ops.nmsub b1 a ops.one) b1 b1
  ops.madd (ops.nmsub b2 a ops.one) b2 b2

/-- `v4float operator*`: `vec_madd(a.v, b.v, _zero)`. -/
def mulv4float {F : Type} (ops : FloatOps F) (a b : F) : F :=
  ops.madd a b ops.zero

/-- `v4float operator/(n, a)` from the source: `vec_re` estimate of
`1/a`, two Newton-Raphson refinement steps, then
`vec_madd(n.v, b_v, _zero)`. -/
def divv4float {F : Type} (ops : FloatOps F) (n a : F) : F :=
  let b1 := ops.re a
  let b2 := ops.madd (ops.nmsub b1 a ops.one) b1 b1
  let b3 := ops.madd (ops.nmsub b2 a ops.one) b2 b2
  ops.madd n b3 ops.zero

/-! ### Memory model for the transposed 4x2 store

Memory is a flat array of 32-bit cells addressed by `Nat` (units of one
float); a C store `p[k] = x` is a pointwise update. -/

/-- One 32-bit store to address `i`. -/
def wr (m : Nat → α) (i : Nat) (x : α) : Nat → α :=
  fun j => if j = i then x else m j

/-- `store_4x2_tr(a, b, pa, pb, pc, pd)` from the source: the eight
scalar stores `pa[0]=a0; pb[0]=a1; pc[0]=a2; pd[0]=a3; pa[1]=b0;
pb[1]=b1; pc[1]=b2; pd[1]=b3`, in program order. -/
def store_4x2_tr (a b : V4 α) (pa pb pc pd : Nat) (m : Nat → α) :
    Nat → α :=
  wr (wr (wr (wr (wr (wr (wr (wr m pa a.l0) pb a.l1) pc a.l2) pd a.l3)
    (pa + 1) b.l0) (pb + 1) b.l1) (pc + 1) b.l2) (pd + 1) b.l3

/-- A 32-bit lane pattern is boolean: all-zero or all-ones. -/
def isBool (x : Nat) : Prop := x = 0 ∨ x = ones32

/-- A register is a boolean vector when every lane is boolean. -/
def isBoolVec (v : V4 Nat) : Prop := ∀ i : Fin 4, isBool (v.get i)

/-- Claim C1: for every four `v4` registers and four distinct aligned
buffers, `store_4x4_tr` followed by `load_4x4_tr` on the same buffers
returns the original four registers bit-for-bit.  Lane contents are an
arbitrary type `α`, so the identity is a pure data-movement fact. -/
theorem store_load_4x4_tr_roundtrip (a b c d : V4 α) :
    (let s := store_4x4_tr a b c d
     load_4x4_tr s.1 s.2.1 s.2.2.1 s.2.2.2) = (a, b, c, d) := by
  cases a; cases b; cases c; cases d; rfl

/-- Claim C2: `transpose` on `a=(0,1,2,3)`, `b=(4,5,6,7)`,
`c=(8,9,10,11)`, `d=(12,13,14,15)` yields `(0,4,8,12)`, `(1,5,9,13)`,
`(2,6,10,14)`, `(3,7,11,15)`; and in general lane `j` of output
register `i` equals lane `i` of input register `j`. -/
theorem transpose_lanes :
    (∀ (α : Type) (a b c d : V4 α) (i j : Fin 4),
      (quadGet (transpose a b c d) i).get j = (quadGet (a, b, c, d) j).get i) ∧
    transpose (V4.mk 0 1 2 3) (V4.mk 4 5 6 7)
              (V4.mk 8 9 10 11) (V4.mk 12 13 14 15) =
      ((V4.mk 0 4 8 12 : V4 Nat), V4.mk 1 5 9 13,
        V4.mk 2 6 10 14, V4.mk 3 7 11 15) := by
  constructor
  · intro α a b c d i j
    fin_cases i <;> fin_cases j <;> rfl
  · rfl

/-- Claim C3: applying `transpose` twice restores the original four
registers bit-for-bit (the merge network is an involution). -/
theorem transpose_involution (a b c d : V4 α) :
    (let t := transpose a b c d
     transpose t.1 t.2.1 t.2.2.1 t.2.2.2) = (a, b, c, d) := by
  cases a; cases b; cases c; cases d; rfl

/-! ### Lane-access helper lemmas -/

/-- Registers agreeing on every lane are equal. -/
theorem V4.ext_get {a b : V4 α} (h : ∀ i : Fin 4, a.get i = b.get i) :
    a = b := by
  cases a; cases b
  simp only [V4.mk.injEq]
  exact ⟨h 0, h 1, h 2, h 3⟩

/-- Lane `i` of a lanewise map. -/
theorem vmap2_get {γ : Type} (f : α → β → γ) (a : V4 α) (b : V4 β)
    (i : Fin 4) : (vmap2 f a b).get i = f (a.get i) (b.get i) := by
  fin_cases i <;> rfl

/-- Lane `i` of `merge` is `vec_sel` of the corresponding lanes. -/
theorem merge_get (c t f : V4 Nat) (i : Fin 4) :
    (merge c t f).get i = vec_sel (f.get i) (t.get i) (c.get i) := by
  fin_cases i <;> rfl

/-- Every lane of `_true` is all-ones. -/
theorem vtrue_get (i : Fin 4) : vtrue.get i = ones32 := by
  fin_cases i <;> rfl

/-- Every lane of `_false` is all-zero. -/
theorem vfalse_get (i : Fin 4) : vfalse.get i = 0 := by
  fin_cases i <;> rfl

/-- `vec_sel` on a boolean condition lane selects one of its operand
lanes whole: `t` under an all-ones condition, `f` under all-zero. -/
theorem vec_sel_bool (ff tt cc : Nat) (hc : cc = 0 ∨ cc = ones32)
    (ht : tt < 2 ^ 32) (hf : ff < 2 ^ 32) :
    vec_sel ff tt cc = if cc = ones32 then tt else ff := by
  rcases hc with h | h <;> subst h
  · rw [if_neg (by decide)]
    simp only [vec_sel, not32, ones32, Nat.zero_xor, Nat.and_zero,
      Nat.or_zero]
    exact Nat.and_pow_two_sub_one_of_lt_two_pow hf
  · rw [if_pos rfl]
    simp only [vec_sel, not32, ones32, Nat.xor_self, Nat.and_zero,
      Nat.zero_or]
    exact Nat.and_pow_two_sub_one_of_lt_two_pow ht

/-- A lane that is `ones32` on one branch and `0` on the other is
boolean. -/
theorem isBool_ite (p : Prop) [Decidable p] :
    isBool (if p then ones32 else 0) := by
  by_cases h : p
  · exact Or.inr (if_pos h)
  · exact Or.inl (if_neg h)

/-- Boolean lanes are closed under bitwise XOR. -/
theorem isBool_xor {x y : Nat} (hx : isBool x) (hy : isBool y) :
    isBool (x ^^^ y) := by
  rcases hx with h | h <;> rcases hy with h2 | h2 <;> subst h <;> subst h2 <;>
    simp [isBool, Nat.zero_xor, Nat.xor_zero, Nat.xor_self]

/-- Boolean lanes are closed under bitwise OR. -/
theorem isBool_or {x y : Nat} (hx : isBool x) (hy : isBool y) :
    isBool (x ||| y) := by
  rcases hx with h | h <;> rcases hy with h2 | h2 <;> subst h <;> subst h2 <;>
    simp [isBool, Nat.zero_or, Nat.or_zero, Nat.or_self]

/-- Boolean lanes are closed under bitwise AND. -/
theorem isBool_and {x y : Nat} (hx : isBool x) (hy : isBool y) :
    isBool (x &&& y) := by
  rcases hx with h | h <;> rcases hy with h2 | h2 <;> subst h <;> subst h2 <;>
    simp [isBool, Nat.zero_and, Nat.and_zero, Nat.and_self]

/-- The `_true` constant is a boolean vector. -/
theorem isBoolVec_vtrue : isBoolVec vtrue := by
  intro i
  rw [vtrue_get]
  exact Or.inr rfl

/-- `vec_cmpeq` on integer lanes yields a boolean vector. -/
theorem isBoolVec_cmpeq_int (a b : V4 Nat) : isBoolVec (vec_cmpeq_int a b) := by
  intro i
  rw [vec_cmpeq_int, vmap2_get]
  exact isBool_ite _

/-- `vec_cmplt` on integer lanes yields a boolean vector. -/
theorem isBoolVec_cmplt_int (a b : V4 Nat) : isBoolVec (vec_cmplt_int a b) := by
  intro i
  rw [vec_cmplt_int, vmap2_get]
  exact isBool_ite _

/-- `vec_cmpgt` on integer lanes yields a boolean vector. -/
theorem isBoolVec_cmpgt_int (a b : V4 Nat) : isBoolVec (vec_cmpgt_int a b) := by
  intro i
  rw [vec_cmpgt_int, vmap2_get]
  exact isBool_ite _

/-- Any hardware float comparison yields a boolean vector. -/
theorem isBoolVec_cmp_f {F : Type} (r : F → F → Bool) (a b : V4 F) :
    isBoolVec (vec_cmp_f r a b) := by
  intro i
  rw [vec_cmp_f, vmap2_get]
  exact isBool_ite _

/-- `vec_xor` preserves boolean vectors. -/
theorem isBoolVec_xor_v {u v : V4 Nat} (hu : isBoolVec u)
    (hv : isBoolVec v) : isBoolVec (vec_xor_v u v) := by
  intro i
  rw [vec_xor_v, vmap2_get]
  exact isBool_xor (hu i) (hv i)

/-- `vec_or` preserves boolean vectors. -/
theorem isBoolVec_or_v {u v : V4 Nat} (hu : isBoolVec u)
    (hv : isBoolVec v) : isBoolVec (vec_or_v u v) := by
  intro i
  rw [vec_or_v, vmap2_get]
  exact isBool_or (hu i) (hv i)

/-- `vec_and` preserves boolean vectors. -/
theorem isBoolVec_and_v {u v : V4 Nat} (hu : isBoolVec u)
    (hv : isBoolVec v) : isBoolVec (vec_and_v u v) := by
  intro i
  rw [vec_and_v, vmap2_get]
  exact isBool_and (hu i) (hv i)

/-- Claim C8: `shuffle(a, 0,1,2,3)` returns `a` bit-for-bit, and the
`_perm` table entry at index `0 + 1*4 + 2*16 + 3*64` is the identity
byte permutation. -/
theorem shuffle_identity :
    (∀ (β : Type) (a : V4 (V4 β)), shuffle a 0 1 2 3 = a) ∧
    (∀ j : Fin 16, permEntry (0 + 1 * 4 + 2 * 16 + 3 * 64) j = j.val) := by
  constructor
  · intro β a
    rfl
  · decide

/-- Claim C10: for every register `a` and lane index `n < 4`,
`splat(a, n)` equals `shuffle(a, n,n,n,n)`, and the `_perm` table entry
at index `85 * n` is the broadcast pattern `P(n,n,n,n)`. -/
theorem splat_eq_shuffle :
    (∀ (β : Type) (a : V4 (V4 β)) (n : Fin 4), splat a n = shuffle a n n n n) ∧
    (∀ (n : Fin 4) (j : Fin 16),
      permEntry (85 * n.val) j = P n.val n.val n.val n.val j) := by
  constructor
  · intro β a n
    fin_cases n <;> rfl
  · decide

/-- Claim C6: for a boolean-vector mask `c` and 32-bit operands, each
lane of `merge(c, t, f)` is the corresponding lane of `t` where the
mask lane is all-ones and of `f` where it is all-zero; in particular
`merge(_true, t, f) = t` and `merge(_false, t, f) = f`. -/
theorem merge_select (c t f : V4 Nat)
    (hc : ∀ i : Fin 4, c.get i = 0 ∨ c.get i = ones32)
    (ht : ∀ i : Fin 4, t.get i < 2 ^ 32)
    (hf : ∀ i : Fin 4, f.get i < 2 ^ 32) :
    (∀ i : Fin 4, (merge c t f).get i =
      if c.get i = ones32 then t.get i else f.get i) ∧
    merge vtrue t f = t ∧ merge vfalse t f = f := by
  refine ⟨?_, ?_, ?_⟩
  · intro i
    rw [merge_get]
    exact vec_sel_bool _ _ _ (hc i) (ht i) (hf i)
  · refine V4.ext_get fun i => ?_
    rw [merge_get, vtrue_get,
      vec_sel_bool _ _ _ (Or.inr rfl) (ht i) (hf i), if_pos rfl]
  · refine V4.ext_get fun i => ?_
    rw [merge_get, vfalse_get,
      vec_sel_bool _ _ _ (Or.inl rfl) (ht i) (hf i), if_neg (by decide)]

/-- Witness for C6 at a concrete mask and operands. -/
theorem merge_select_witness :
    ((∀ i : Fin 4, (V4.mk ones32 0 ones32 0 : V4 Nat).get i = 0 ∨
        (V4.mk ones32 0 ones32 0 : V4 Nat).get i = ones32) ∧
      (∀ i : Fin 4, (V4.mk 1 2 3 4 : V4 Nat).get i < 2 ^ 32) ∧
      (∀ i : Fin 4, (V4.mk 5 6 7 8 : V4 Nat).get i < 2 ^ 32)) ∧
    ((∀ i : Fin 4,
        (merge (V4.mk ones32 0 ones32 0) (V4.mk 1 2 3 4)
          (V4.mk 5 6 7 8)).get i =
        if (V4.mk ones32 0 ones32 0 : V4 Nat).get i = ones32 then
          (V4.mk 1 2 3 4 : V4 Nat).get i
        else (V4.mk 5 6 7 8 : V4 Nat).get i) ∧
      merge vtrue (V4.mk 1 2 3 4) (V4.mk 5 6 7 8) = V4.mk 1 2 3 4 ∧
      merge vfalse (V4.mk 1 2 3 4) (V4.mk 5 6 7 8) = V4.mk 5 6 7 8) :=
  ⟨⟨by decide, by decide, by decide⟩,
    merge_select (V4.mk ones32 0 ones32 0) (V4.mk 1 2 3 4) (V4.mk 5 6 7 8)
      (by decide) (by decide) (by decide)⟩

/-- Claim C7: every comparison operator on integer registers
(`< > == != <= >= && ||`) and on float registers (the hardware
compares for `< > == <= >=`, plus `!= && ||`) yields a boolean vector:
each result lane is all-zero or all-ones, for all inputs. -/
theorem comparison_results_are_boolean :
    (∀ a b : V4 Nat, isBoolVec (ltv4int a b)) ∧
    (∀ a b : V4 Nat, isBoolVec (gtv4int a b)) ∧
    (∀ a b : V4 Nat, isBoolVec (eqv4int a b)) ∧
    (∀ a b : V4 Nat, isBoolVec (nev4int a b)) ∧
    (∀ a b : V4 Nat, isBoolVec (lev4int a b)) ∧
    (∀ a b : V4 Nat, isBoolVec (gev4int a b)) ∧
    (∀ a b : V4 Nat, isBoolVec (andv4int a b)) ∧
    (∀ a b : V4 Nat, isBoolVec (orv4int a b)) ∧
    (∀ (F : Type) (r : F → F → Bool) (a b : V4 F),
      isBoolVec (vec_cmp_f r a b)) ∧
    (∀ (F : Type) (req : F → F → Bool) (a b : V4 F),
      isBoolVec (nev4float req a b)) ∧
    (∀ (F : Type) (req : F → F → Bool) (z : F) (a b : V4 F),
      isBoolVec (andv4float req z a b)) ∧
    (∀ (F : Type) (req : F → F → Bool) (z : F) (a b : V4 F),
      isBoolVec (orv4float req z a b)) := by
  refine ⟨fun a b => isBoolVec_cmplt_int a b,
    fun a b => isBoolVec_cmpgt_int a b,
    fun a b => isBoolVec_cmpeq_int a b,
    fun a b => ?_, fun a b => ?_, fun a b => ?_, fun a b => ?_,
    fun a b => ?_,
    fun F r a b => isBoolVec_cmp_f r a b,
    fun F req a b => ?_, fun F req z a b => ?_, fun F req z a b => ?_⟩
  · exact isBoolVec_xor_v isBoolVec_vtrue (isBoolVec_cmpeq_int a b)
  · exact isBoolVec_xor_v isBoolVec_vtrue (isBoolVec_cmpgt_int a b)
  · exact isBoolVec_xor_v isBoolVec_vtrue (isBoolVec_cmplt_int a b)
  · exact isBoolVec_xor_v isBoolVec_vtrue
      (isBoolVec_or_v (isBoolVec_cmpeq_int a vfalse)
        (isBoolVec_cmpeq_int b vfalse))
  · exact isBoolVec_xor_v isBoolVec_vtrue
      (isBoolVec_and_v (isBoolVec_cmpeq_int a vfalse)
        (isBoolVec_cmpeq_int b vfalse))
  · exact isBoolVec_xor_v (isBoolVec_cmp_f req a b) isBoolVec_vtrue
  · exact isBoolVec_xor_v
      (isBoolVec_or_v (isBoolVec_cmp_f req a (vbroadcast z))
        (isBoolVec_cmp_f req b (vbroadcast z))) isBoolVec_vtrue
  · exact isBoolVec_xor_v
      (isBoolVec_and_v (isBoolVec_cmp_f req a (vbroadcast z))
        (isBoolVec_cmp_f req b (vbroadcast z))) isBoolVec_vtrue

/-- Reading the cell a `wr` wrote returns the stored value. -/
theorem wr_hit (m : Nat → α) (i : Nat) (x : α) : wr m i x i = x := by
  simp [wr]

/-- Reading any other cell sees the previous memory. -/
theorem wr_miss (m : Nat → α) (i : Nat) (x : α) (j : Nat) (h : j ≠ i) :
    wr m i x j = m j := by
  simp [wr, h]

/-- Claim C4: `n / a` on float registers is computed exactly as `n`
times the two-step Newton-Raphson-refined reciprocal: for every
interpretation of the hardware primitives (hence bit-for-bit under the
IEEE semantics), `operator/(n, a) = operator*(n, rcp(a))`; `FloatOps`
has no divide primitive, so no native divide is involved. -/
theorem div_eq_mul_rcp {F : Type} (ops : FloatOps F) (n a : F) :
    divv4float ops n a = mulv4float ops n (rcp ops a) := rfl

/-- Claim C9: `store_4x2_tr` writes field 0 of each destination from
the corresponding lane of `a` and field 1 from the corresponding lane
of `b`, and leaves every other memory cell unchanged.  The four
destinations are distinct two-cell buffers (pairwise-disjoint regions
`{p, p+1}`, the contract of four distinct `ALIGNED(8)` pointers). -/
theorem store_4x2_tr_spec (a b : V4 α) (pa pb pc pd : Nat) (m : Nat → α)
    (hab : pa + 2 ≤ pb ∨ pb + 2 ≤ pa) (hac : pa + 2 ≤ pc ∨ pc + 2 ≤ pa)
    (had : pa + 2 ≤ pd ∨ pd + 2 ≤ pa) (hbc : pb + 2 ≤ pc ∨ pc + 2 ≤ pb)
    (hbd : pb + 2 ≤ pd ∨ pd + 2 ≤ pb) (hcd : pc + 2 ≤ pd ∨ pd + 2 ≤ pc) :
    (store_4x2_tr a b pa pb pc pd m) pa = a.l0 ∧
    (store_4x2_tr a b pa pb pc pd m) (pa + 1) = b.l0 ∧
    (store_4x2_tr a b pa pb pc pd m) pb = a.l1 ∧
    (store_4x2_tr a b pa pb pc pd m) (pb + 1) = b.l1 ∧
    (store_4x2_tr a b pa pb pc pd m) pc = a.l2 ∧
    (store_4x2_tr a b pa pb pc pd m) (pc + 1) = b.l2 ∧
    (store_4x2_tr a b pa pb pc pd m) pd = a.l3 ∧
    (store_4x2_tr a b pa pb pc pd m) (pd + 1) = b.l3 ∧
    ∀ q : Nat, q ≠ pa → q ≠ pa + 1 → q ≠ pb → q ≠ pb + 1 → q ≠ pc →
      q ≠ pc + 1 → q ≠ pd → q ≠ pd + 1 →
      (store_4x2_tr a b pa pb pc pd m) q = m q := by
  refine ⟨?_, ?_, ?_, ?_, ?_, ?_, ?_, ?_, ?_⟩
  · simp only [store_4x2_tr]
    rw [wr_miss _ _ _ _ (show pa ≠ pd + 1 by omega),
      wr_miss _ _ _ _ (show pa ≠ pc + 1 by omega),
      wr_miss _ _ _ _ (show pa ≠ pb + 1 by omega),
      wr_miss _ _ _ _ (show pa ≠ pa + 1 by omega),
      wr_miss _ _ _ _ (show pa ≠ pd by omega),
      wr_miss _ _ _ _ (show pa ≠ pc by omega),
      wr_miss _ _ _ _ (show pa ≠ pb by omega), wr_hit]
  · simp only [store_4x2_tr]
    rw [wr_miss _ _ _ _ (show pa + 1 ≠ pd + 1 by omega),
      wr_miss _ _ _ _ (show pa + 1 ≠ pc + 1 by omega),
      wr_miss _ _ _ _ (show pa + 1 ≠ pb + 1 by omega), wr_hit]
  · simp only [store_4x2_tr]
    rw [wr_miss _ _ _ _ (show pb ≠ pd + 1 by omega),
      wr_miss _ _ _ _ (show pb ≠ pc + 1 by omega),
      wr_miss _ _ _ _ (show pb ≠ pb + 1 by omega),
      wr_miss _ _ _ _ (show pb ≠ pa + 1 by omega),
      wr_miss _ _ _ _ (show pb ≠ pd by omega),
      wr_miss _ _ _ _ (show pb ≠ pc by omega), wr_hit]
  · simp only [store_4x2_tr]
    rw [wr_miss _ _ _ _ (show pb + 1 ≠ pd + 1 by omega),
      wr_miss _ _ _ _ (show pb + 1 ≠ pc + 1 by omega), wr_hit]
  · simp only [store_4x2_tr]
    rw [wr_miss _ _ _ _ (show pc ≠ pd + 1 by omega),
      wr_miss _ _ _ _ (show pc ≠ pc + 1 by omega),
      wr_miss _ _ _ _ (show pc ≠ pb + 1 by omega),
      wr_miss _ _ _ _ (show pc ≠ pa + 1 by omega),
      wr_miss _ _ _ _ (show pc ≠ pd by omega), wr_hit]
  · simp only [store_4x2_tr]
    rw [wr_miss _ _ _ _ (show pc + 1 ≠ pd + 1 by omega), wr_hit]
  · simp only [store_4x2_tr]
    rw [wr_miss _ _ _ _ (show pd ≠ pd + 1 by omega),
      wr_miss _ _ _ _ (show pd ≠ pc + 1 by omega),
      wr_miss _ _ _ _ (show pd ≠ pb + 1 by omega),
      wr_miss _ _ _ _ (show pd ≠ pa + 1 by omega), wr_hit]
  · simp only [store_4x2_tr]
    rw [wr_hit]
  · intro q h1 h2 h3 h4 h5 h6 h7 h8
    simp only [store_4x2_tr]
    rw [wr_miss _ _ _ _ h8, wr_miss _ _ _ _ h6, wr_miss _ _ _ _ h4,
      wr_miss _ _ _ _ h2, wr_miss _ _ _ _ h7, wr_miss _ _ _ _ h5,
      wr_miss _ _ _ _ h3, wr_miss _ _ _ _ h1]

/-- Witness for C9 at concrete disjoint buffers. -/
theorem store_4x2_tr_spec_witness :
    (((0 : Nat) + 2 ≤ 2 ∨ 2 + 2 ≤ 0) ∧ ((0 : Nat) + 2 ≤ 4 ∨ 4 + 2 ≤ 0) ∧
      ((0 : Nat) + 2 ≤ 6 ∨ 6 + 2 ≤ 0) ∧ ((2 : Nat) + 2 ≤ 4 ∨ 4 + 2 ≤ 2) ∧
      ((2 : Nat) + 2 ≤ 6 ∨ 6 + 2 ≤ 2) ∧ ((4 : Nat) + 2 ≤ 6 ∨ 6 + 2 ≤ 4)) ∧
    ((store_4x2_tr (V4.mk 10 11 12 13) (V4.mk 20 21 22 23) 0 2 4 6
        (fun _ => (0 : Nat))) 0 = (V4.mk 10 11 12 13 : V4 Nat).l0 ∧
      (store_4x2_tr (V4.mk 10 11 12 13) (V4.mk 20 21 22 23) 0 2 4 6
        (fun _ => (0 : Nat))) (0 + 1) = (V4.mk 20 21 22 23 : V4 Nat).l0 ∧
      (store_4x2_tr (V4.mk 10 11 12 13) (V4.mk 20 21 22 23) 0 2 4 6
        (fun _ => (0 : Nat))) 2 = (V4.mk 10 11 12 13 : V4 Nat).l1 ∧
      (store_4x2_tr (V4.mk 10 11 12 13) (V4.mk 20 21 22 23) 0 2 4 6
        (fun _ => (0 : Nat))) (2 + 1) = (V4.mk 20 21 22 23 : V4 Nat).l1 ∧
      (store_4x2_tr (V4.mk 10 11 12 13) (V4.mk 20 21 22 23) 0 2 4 6
        (fun _ => (0 : Nat))) 4 = (V4.mk 10 11 12 13 : V4 Nat).l2 ∧
      (store_4x2_tr (V4.mk 10 11 12 13) (V4.mk 20 21 22 23) 0 2 4 6
        (fun _ => (0 : Nat))) (4 + 1) = (V4.mk 20 21 22 23 : V4 Nat).l2 ∧
      (store_4x2_tr (V4.mk 10 11 12 13) (V4.mk 20 21 22 23) 0 2 4 6
        (fun _ => (0 : Nat))) 6 = (V4.mk 10 11 12 13 : V4 Nat).l3 ∧
      (store_4x2_tr (V4.mk 10 11 12 13) (V4.mk 20 21 22 23) 0 2 4 6
        (fun _ => (0 : Nat))) (6 + 1) = (V4.mk 20 21 22 23 : V4 Nat).l3 ∧
      ∀ q : Nat, q ≠ 0 → q ≠ 0 + 1 → q ≠ 2 → q ≠ 2 + 1 → q ≠ 4 →
        q ≠ 4 + 1 → q ≠ 6 → q ≠ 6 + 1 →
        (store_4x2_tr (V4.mk 10 11 12 13) (V4.mk 20 21 22 23) 0 2 4 6
          (fun _ => (0 : Nat))) q = (fun _ => (0 : Nat)) q) :=
  ⟨⟨by decide, by decide, by decide, by decide, by decide, by decide⟩,
    store_4x2_tr_spec (V4.mk 10 11 12 13) (V4.mk 20 21 22 23) 0 2 4 6
      (fun _ => (0 : Nat)) (by decide) (by decide) (by decide) (by decide)
      (by decide) (by decide)⟩

end VPIC
